import Mathlib

/-!
Shallow embedding of the gVisor UDP transport endpoint
(pkg/tcpip/transport/udp/endpoint.go) together with proofs about its state
machine, receive queue, checksum pipeline and socket options.

Machine integers are modelled as `Nat`/`Int` with explicit wrapping
(`% 2 ^ w`) where the Go code relies on fixed-width arithmetic.  External
collaborators of the endpoint (the stack registry, route resolution, address
canonicalisation) are passed in as explicit oracle values, and calls into the
stack are recorded as an effect trace, so "the port is released" or "the
endpoint is re-registered" are observable facts of the model.
-/

namespace Udp

/-! ## Basic protocol constants (pkg/tcpip/header) -/

/-- IPv4 network protocol number (0x0800). -/
def ipv4ProtocolNumber : Nat := 2048

/-- IPv6 network protocol number (0x86dd). -/
def ipv6ProtocolNumber : Nat := 34525

/-- UDP transport protocol number. -/
def udpProtocolNumber : Nat := 17

/-- header.UDPMinimumSize: size of the 8-byte UDP header. -/
def udpMinimumSize : Nat := 8

/-- header.UDPMaximumPacketSize: largest representable UDP datagram. -/
def udpMaximumPacketSize : Nat := 65535

/-- waiter.EventIn. -/
def eventIn : Nat := 1

/-- waiter.EventOut. -/
def eventOut : Nat := 4

/-- waiter.EventErr. -/
def eventErr : Nat := 8

/-- waiter.EventHUp. -/
def eventHUp : Nat := 16

/-- tcpip.ShutdownRead. -/
def shutdownRead : Nat := 1

/-- tcpip.ShutdownWrite. -/
def shutdownWrite : Nat := 2

/-- tcpip.PMTUDiscoveryDont (the only value SetSockOptInt accepts for
MTUDiscoverOption). -/
def pmtuDiscoveryDont : Int := 1

/-! ## Addresses and identifiers -/

/-- A tcpip.Address is a byte string; the empty list is the wildcard
address "". -/
abbrev Address := List Nat

/-- A tcpip.NICID. -/
abbrev NICID := Nat

/-- tcpip.FullAddress. -/
structure FullAddress where
  nic : NICID := 0
  addr : Address := []
  port : Nat := 0
deriving DecidableEq, Repr

/-- stack.TransportEndpointID: the four-tuple keyed in the stack registry. -/
structure TransportEndpointID where
  localPort : Nat := 0
  localAddress : Address := []
  remotePort : Nat := 0
  remoteAddress : Address := []
deriving DecidableEq, Repr

/-- ports.Flags. -/
structure PortFlags where
  mostRecent : Bool := false
  loadBalanced : Bool := false
deriving DecidableEq, Repr

/-- The abstract error kinds of the tcpip package used by the endpoint. -/
inductive TcpipError where
  | wouldBlock
  | closedForReceive
  | closedForSend
  | destinationRequired
  | invalidEndpointState
  | invalidOptionValue
  | messageTooLong
  | noRoute
  | broadcastDisabled
  | networkUnreachable
  | noLinkAddress
  | badLocalAddress
  | unknownDevice
  | portInUse
  | notConnected
  | notSupported
  | unknownProtocolOption
  | connectionRefused
deriving DecidableEq, Repr

/-- EndpointState: the four lifecycle states of a UDP endpoint. -/
inductive EndpointState where
  | initial
  | bound
  | connected
  | closed
deriving DecidableEq, Repr

/-! ## The Internet checksum (pkg/tcpip/header/checksum.go)

`calculateChecksum` accumulates 16-bit big-endian words of the buffer into a
32-bit accumulator seeded with the initial value and then folds the high half
into the low half once (`ChecksumCombine(uint16(v), uint16(v>>16))`).  An odd
trailing byte is padded on the right (`v += uint32(buf[l]) << 8`). -/

/-- Pair up bytes into big-endian 16-bit words; a trailing odd byte becomes
the high byte of a final word, as in calculateChecksum. -/
def bytesToWords : List Nat → List Nat
  | [] => []
  | [b] => [b * 256]
  | b1 :: b2 :: rest => (b1 * 256 + b2) :: bytesToWords rest

/-- header.ChecksumCombine: `uint16(v + v>>16)` for `v = a + b` computed in
uint32. -/
def combine16 (a b : Nat) : Nat :=
  (a + b + (a + b) / 65536) % 65536

/-- header.Checksum on a word list: accumulate `initial + Σ words` into the
32-bit accumulator and fold once.  The `% 65536` projections mirror the
`uint16(v)` / `uint16(v >> 16)` conversions. -/
def calcW (ws : List Nat) (initial : Nat) : Nat :=
  combine16 ((initial + ws.sum) % 65536) ((initial + ws.sum) / 65536 % 65536)

/-- header.Checksum over a byte buffer. -/
def checksum (buf : List Nat) (initial : Nat) : Nat :=
  calcW (bytesToWords buf) initial

/-- header.PseudoHeaderChecksum: checksum the source address, the destination
address, the 2-byte total length and the 2-byte protocol number, chaining the
partial results. -/
def pseudoHeaderChecksum (protocol : Nat) (srcAddr dstAddr : Address) (totalLen : Nat) : Nat :=
  checksum [0, protocol]
    (checksum [totalLen / 256 % 256, totalLen % 256]
      (checksum dstAddr
        (checksum srcAddr 0)))

/-- The 8 bytes of a UDP header as written by header.UDP.Encode /
SetChecksum (big-endian src port, dst port, length, checksum). -/
def udpHeaderBytes (srcPort dstPort length ck : Nat) : List Nat :=
  [srcPort / 256 % 256, srcPort % 256,
   dstPort / 256 % 256, dstPort % 256,
   length / 256 % 256, length % 256,
   ck / 256 % 256, ck % 256]

/-- The transport checksum of a UDP packet: pseudo-header, then the payload
view, then the 8 header bytes (udp.CalculateChecksum applied to the partial
checksum of pseudo-header and payload). -/
def udpXsum (src dst : Address) (data : List Nat) (srcPort dstPort length ck : Nat) : Nat :=
  checksum (udpHeaderBytes srcPort dstPort length ck)
    (checksum data
      (pseudoHeaderChecksum udpProtocolNumber src dst length))

/-! ### Arithmetic facts about the checksum -/

theorem combine16_spec (a b : Nat) (ha : a ≤ 65535) (hb : b ≤ 65535) :
    combine16 a b ≤ 65535 ∧
    combine16 a b % 65535 = (a + b) % 65535 ∧
    (combine16 a b = 0 ↔ a + b = 0) := by
  unfold combine16
  rcases Nat.lt_or_ge (a + b) 65536 with h | h
  · have h0 : (a + b) / 65536 = 0 := Nat.div_eq_of_lt h
    rw [h0]
    omega
  · have h1 : (a + b) / 65536 = 1 := by omega
    rw [h1]
    omega

theorem calcW_spec (ws : List Nat) (initial : Nat)
    (hv : initial + ws.sum < 4294967296) :
    calcW ws initial ≤ 65535 ∧
    calcW ws initial % 65535 = (initial + ws.sum) % 65535 ∧
    (calcW ws initial = 0 ↔ initial + ws.sum = 0) := by
  unfold calcW
  have ha : (initial + ws.sum) % 65536 ≤ 65535 := by omega
  have hb : (initial + ws.sum) / 65536 % 65536 ≤ 65535 := by omega
  have hd : (initial + ws.sum) / 65536 % 65536 = (initial + ws.sum) / 65536 := by
    omega
  obtain ⟨h1, h2, h3⟩ := combine16_spec _ _ ha hb
  refine ⟨h1, ?_, ?_⟩
  · rw [h2, hd]; omega
  · rw [h3, hd]; omega

theorem bytesToWords_sum_le (buf : List Nat) (hb : ∀ b ∈ buf, b ≤ 255) :
    (bytesToWords buf).sum ≤ 65535 * buf.length := by
  match buf with
  | [] => simp [bytesToWords]
  | [b] =>
    have := hb b (by simp)
    simp [bytesToWords]
    omega
  | b1 :: b2 :: rest =>
    have h1 := hb b1 (by simp)
    have h2 := hb b2 (by simp)
    have ih := bytesToWords_sum_le rest (fun b hbm => hb b (by simp [hbm]))
    simp [bytesToWords]
    omega

theorem checksum_spec (buf : List Nat) (initial : Nat)
    (hb : ∀ b ∈ buf, b ≤ 255) (hlen : buf.length ≤ 65535) (hinit : initial ≤ 65535) :
    checksum buf initial ≤ 65535 ∧
    checksum buf initial % 65535 = (initial + (bytesToWords buf).sum) % 65535 ∧
    (checksum buf initial = 0 ↔ initial + (bytesToWords buf).sum = 0) := by
  have hs := bytesToWords_sum_le buf hb
  have hmul : 65535 * buf.length ≤ 65535 * 65535 :=
    Nat.mul_le_mul_left 65535 hlen
  exact calcW_spec (bytesToWords buf) initial (by omega)

theorem pseudoHeaderChecksum_spec (protocol : Nat) (src dst : Address) (totalLen : Nat)
    (hs : ∀ b ∈ src, b ≤ 255) (hd : ∀ b ∈ dst, b ≤ 255)
    (hsl : src.length ≤ 65535) (hdl : dst.length ≤ 65535)
    (hp : protocol ≤ 255) (hl : totalLen ≤ 65535) :
    pseudoHeaderChecksum protocol src dst totalLen ≤ 65535 ∧
    pseudoHeaderChecksum protocol src dst totalLen % 65535 =
      ((bytesToWords src).sum + (bytesToWords dst).sum + totalLen + protocol) % 65535 ∧
    (0 < protocol → pseudoHeaderChecksum protocol src dst totalLen ≠ 0) := by
  obtain ⟨a1, a2, a3⟩ := checksum_spec src 0 hs hsl (by omega)
  obtain ⟨b1, b2, b3⟩ := checksum_spec dst _ hd hdl a1
  obtain ⟨c1, c2, c3⟩ := checksum_spec [totalLen / 256 % 256, totalLen % 256] _
    (by intro b hb; simp at hb; omega) (by simp) b1
  obtain ⟨d1, d2, d3⟩ := checksum_spec [0, protocol] _
    (by intro b hb; simp at hb; omega) (by simp) c1
  have e1 : (bytesToWords [totalLen / 256 % 256, totalLen % 256]).sum = totalLen := by
    simp [bytesToWords]
    omega
  have e2 : (bytesToWords [0, protocol]).sum = protocol := by
    simp [bytesToWords]
  rw [e1] at c2 c3
  rw [e2] at d2 d3
  unfold pseudoHeaderChecksum
  refine ⟨d1, by omega, by omega⟩

theorem udpHeaderBytes_le (srcPort dstPort length ck : Nat) :
    ∀ b ∈ udpHeaderBytes srcPort dstPort length ck, b ≤ 255 := by
  intro b hb
  simp [udpHeaderBytes] at hb
  omega

theorem udpHeaderBytes_words_sum (srcPort dstPort length ck : Nat)
    (h1 : srcPort ≤ 65535) (h2 : dstPort ≤ 65535) (h3 : length ≤ 65535) (h4 : ck ≤ 65535) :
    (bytesToWords (udpHeaderBytes srcPort dstPort length ck)).sum =
      srcPort + dstPort + length + ck := by
  simp [udpHeaderBytes, bytesToWords]
  omega

theorem udpXsum_spec (src dst : Address) (data : List Nat) (srcPort dstPort length ck : Nat)
    (hs : ∀ b ∈ src, b ≤ 255) (hd : ∀ b ∈ dst, b ≤ 255)
    (hdata : ∀ b ∈ data, b ≤ 255)
    (hsl : src.length ≤ 65535) (hdl : dst.length ≤ 65535) (hdatal : data.length ≤ 65535)
    (hsp : srcPort ≤ 65535) (hdp : dstPort ≤ 65535) (hl : length ≤ 65535) (hck : ck ≤ 65535) :
    udpXsum src dst data srcPort dstPort length ck ≤ 65535 ∧
    udpXsum src dst data srcPort dstPort length ck % 65535 =
      ((bytesToWords src).sum + (bytesToWords dst).sum + (bytesToWords data).sum +
        srcPort + dstPort + length + length + ck + udpProtocolNumber) % 65535 ∧
    udpXsum src dst data srcPort dstPort length ck ≠ 0 := by
  obtain ⟨p1, p2, p3⟩ := pseudoHeaderChecksum_spec udpProtocolNumber src dst length
    hs hd hsl hdl (by decide) hl
  obtain ⟨q1, q2, q3⟩ := checksum_spec data _ hdata hdatal p1
  obtain ⟨r1, r2, r3⟩ := checksum_spec (udpHeaderBytes srcPort dstPort length ck) _
    (udpHeaderBytes_le srcPort dstPort length ck) (by simp [udpHeaderBytes]) q1
  have hw := udpHeaderBytes_words_sum srcPort dstPort length ck hsp hdp hl hck
  rw [hw] at r2 r3
  have hpos : pseudoHeaderChecksum udpProtocolNumber src dst length ≠ 0 :=
    p3 (by decide)
  unfold udpXsum
  have hup : udpProtocolNumber = 17 := rfl
  refine ⟨r1, by omega, by omega⟩

/-- Checksum round trip: the on-wire checksum computed by the send path
(`^udp.CalculateChecksum(xsum)`, i.e. `65535 - xsum`) makes the receive-path
recomputation (with source and destination addresses swapped in the
pseudo-header) fold to 0xffff. -/
theorem udpXsum_roundtrip (src dst : Address) (data : List Nat) (srcPort dstPort length : Nat)
    (hs : ∀ b ∈ src, b ≤ 255) (hd : ∀ b ∈ dst, b ≤ 255)
    (hdata : ∀ b ∈ data, b ≤ 255)
    (hsl : src.length ≤ 65535) (hdl : dst.length ≤ 65535) (hdatal : data.length ≤ 65535)
    (hsp : srcPort ≤ 65535) (hdp : dstPort ≤ 65535) (hl : length ≤ 65535) :
    udpXsum dst src data srcPort dstPort length
      (65535 - udpXsum src dst data srcPort dstPort length 0) = 65535 := by
  obtain ⟨s1, s2, s3⟩ := udpXsum_spec src dst data srcPort dstPort length 0
    hs hd hdata hsl hdl hdatal hsp hdp hl (by omega)
  obtain ⟨v1, v2, v3⟩ := udpXsum_spec dst src data srcPort dstPort length
    (65535 - udpXsum src dst data srcPort dstPort length 0)
    hd hs hdata hdl hsl hdatal hsp hdp hl (by omega)
  omega

/-! ## Routes and the send path (sendUDP) -/

/-- The slice of a stack.Route the endpoint's datapaths consult. -/
structure Route where
  localAddress : Address := []
  remoteAddress : Address := []
  netProto : Nat := ipv4ProtocolNumber
  requiresTXTransportChecksum : Bool := true
  defaultTTL : Nat := 64
  isOutboundBroadcast : Bool := false
  isResolutionRequired : Bool := false
  maxHeaderLength : Nat := 0
deriving DecidableEq, Repr

/-- The observable content of the packet handed to route.WritePacket by
sendUDP: the encoded UDP header fields, the payload, and the network-header
parameters (TTL, TOS). -/
structure SentPacket where
  srcPort : Nat := 0
  dstPort : Nat := 0
  length : Nat := 0
  checksumField : Nat := 0
  payload : List Nat := []
  ttl : Nat := 0
  tos : Nat := 0
deriving DecidableEq, Repr

/-- sendUDP (endpoint.go): push an 8-byte UDP header, encode (src, dst,
length), set the checksum field to the complement of the transport checksum
exactly when the route requires TX transport checksums and (the no-checksum
option is off or the network protocol is IPv6), pick the route's default TTL
when `useDefaultTTL`, and hand the packet to the route.  `length` is
`uint16(pkt.Size())`. -/
def sendUDP (r : Route) (data : List Nat) (localPort remotePort : Nat)
    (ttl : Nat) (useDefaultTTL : Bool) (tos : Nat) (noChecksum : Bool) : SentPacket :=
  let length := (udpMinimumSize + data.length) % 65536
  let ck :=
    if r.requiresTXTransportChecksum &&
        (!noChecksum || r.netProto == ipv6ProtocolNumber) then
      65535 - udpXsum r.localAddress r.remoteAddress data localPort remotePort length 0
    else 0
  { srcPort := localPort, dstPort := remotePort, length := length,
    checksumField := ck, payload := data,
    ttl := if useDefaultTTL then r.defaultTTL else ttl, tos := tos }

/-! ## The receive path -/

/-- The four fields of a parsed UDP header (header.UDP accessors). -/
structure UDPHeader where
  srcPort : Nat := 0
  dstPort : Nat := 0
  length : Nat := 0
  checksumField : Nat := 0
deriving DecidableEq, Repr

/-- The slice of a stack.PacketBuffer the receive path consults: the parsed
transport header, the payload view, and the network-header facts. -/
structure RecvPacketBuffer where
  transportHeader : UDPHeader := {}
  data : List Nat := []
  rxTransportChecksumValidated : Bool := false
  networkProtocolNumber : Nat := ipv4ProtocolNumber
  networkSourceAddress : Address := []
  networkDestinationAddress : Address := []
  nicID : NICID := 0
  tosField : Nat := 0
deriving DecidableEq, Repr

/-- verifyChecksum (endpoint.go): skip when RX checksum offload already
validated, or when the checksum field is zero on a non-IPv6 packet;
otherwise recompute over pseudo-header (destination first, per the call
site), payload and header and require the fold to equal 0xffff. -/
def verifyChecksum (hdr : UDPHeader) (pkt : RecvPacketBuffer) : Bool :=
  if !pkt.rxTransportChecksumValidated &&
      (hdr.checksumField != 0 || pkt.networkProtocolNumber == ipv6ProtocolNumber) then
    udpXsum pkt.networkDestinationAddress pkt.networkSourceAddress pkt.data
      hdr.srcPort hdr.dstPort hdr.length hdr.checksumField == 65535
  else true

/-! ## The endpoint data model -/

/-- udpPacket: one queued datagram with its ancillary metadata. -/
structure UdpPacket where
  senderAddress : FullAddress := {}
  destinationAddress : FullAddress := {}
  packetInfoLocalAddr : Address := []
  packetInfoDestinationAddr : Address := []
  packetInfoNIC : NICID := 0
  data : List Nat := []
  timestamp : Int := 0
  tos : Nat := 0
deriving DecidableEq, Repr

/-- tcpip.ControlMessages as populated by Read. -/
structure ControlMessages where
  hasTimestamp : Bool := false
  timestamp : Int := 0
  hasTOS : Bool := false
  tos : Nat := 0
  hasTClass : Bool := false
  tClass : Nat := 0
  hasIPPacketInfo : Bool := false
  packetInfoNIC : NICID := 0
  packetInfoLocalAddr : Address := []
  packetInfoDestinationAddr : Address := []
  hasOriginalDstAddress : Bool := false
  originalDstAddress : FullAddress := {}
deriving DecidableEq, Repr

/-- The endpoint state (struct endpoint).  Fields of the external options
holder that the endpoint merely reads (v6only, the receive-* flags) are
modelled as plain fields; per-endpoint statistics counters are `stat*`
fields. -/
structure Endpoint where
  netProto : Nat := ipv4ProtocolNumber
  state : EndpointState := .initial
  id : TransportEndpointID := {}
  bindNICID : NICID := 0
  registerNICID : NICID := 0
  route : Option Route := none
  dstPort : Nat := 0
  ttl : Nat := 0
  multicastTTL : Nat := 1
  multicastAddr : Address := []
  multicastNICID : NICID := 0
  sendTOS : Nat := 0
  shutdownFlags : Nat := 0
  portFlags : PortFlags := {}
  boundPortFlags : PortFlags := {}
  bindToDevice : NICID := 0
  boundBindToDevice : NICID := 0
  effectiveNetProtos : List Nat := []
  v6only : Bool := false
  lastError : Option TcpipError := none
  rcvReady : Bool := false
  rcvClosed : Bool := false
  rcvList : List UdpPacket := []
  rcvBufSize : Int := 0
  rcvBufSizeMax : Int := 32768
  sndBufSizeMax : Int := 32768
  receiveTOS : Bool := false
  receiveTClass : Bool := false
  receivePacketInfo : Bool := false
  receiveOriginalDstAddress : Bool := false
  statReadClosed : Nat := 0
  statMalformed : Nat := 0
  statChecksumErrors : Nat := 0
  statPacketsReceived : Nat := 0
  statClosedReceiver : Nat := 0
  statReceiveBufferOverflow : Nat := 0
deriving DecidableEq, Repr

/-! ## LastError, Read, Readiness, control packets -/

/-- LastError: read the last-error slot and clear it. -/
def LastError (e : Endpoint) : Option TcpipError × Endpoint :=
  (e.lastError, { e with lastError := none })

/-- The result of Read: either an error, or (payload view, sender address,
control messages). -/
inductive ReadResult where
  | err (error : TcpipError)
  | ok (sender : FullAddress) (view : List Nat) (cm : ControlMessages)
deriving DecidableEq, Repr

/-- The error of a ReadResult, if any. -/
def ReadResult.errorOf : ReadResult → Option TcpipError
  | .err e => some e
  | .ok _ _ _ => none

/-- The payload of a successful ReadResult, if any. -/
def ReadResult.payloadOf : ReadResult → Option (List Nat)
  | .err _ => none
  | .ok _ v _ => some v

/-- The control messages Read builds for a popped packet: always the
timestamp, then TOS / TClass / packet-info / original-destination according
to the receive-* option flags. -/
def buildControlMessages (e : Endpoint) (p : UdpPacket) : ControlMessages :=
  let cm : ControlMessages := { hasTimestamp := true, timestamp := p.timestamp }
  let cm := if e.receiveTOS then { cm with hasTOS := true, tos := p.tos } else cm
  let cm := if e.receiveTClass then { cm with hasTClass := true, tClass := p.tos } else cm
  let cm :=
    if e.receivePacketInfo then
      { cm with
        hasIPPacketInfo := true
        packetInfoNIC := p.packetInfoNIC
        packetInfoLocalAddr := p.packetInfoLocalAddr
        packetInfoDestinationAddr := p.packetInfoDestinationAddr }
    else cm
  if e.receiveOriginalDstAddress then
    { cm with hasOriginalDstAddress := true, originalDstAddress := p.destinationAddress }
  else cm

/-- Read (endpoint.go): return and clear any pending asynchronous error
first; with an empty list return closed-for-receive (bumping the ReadClosed
counter) when the queue is closed and would-block otherwise; else pop the
head record and subtract its size from the byte count. -/
def Read (e0 : Endpoint) : ReadResult × Endpoint :=
  match LastError e0 with
  | (some err, e) => (.err err, e)
  | (none, e) =>
    match e.rcvList with
    | [] =>
      if e.rcvClosed then
        (.err .closedForReceive, { e with statReadClosed := e.statReadClosed + 1 })
      else
        (.err .wouldBlock, e)
    | p :: rest =>
      let e' := { e with
                  rcvList := rest
                  rcvBufSize := e.rcvBufSize - (p.data.length : Int) }
      (.ok p.senderAddress p.data (buildControlMessages e' p), e')

/-- Readiness (endpoint.go): start from EventOut masked by the caller's
interest, add EventIn (when requested) if the list is non-empty or the queue
is closed, then add EventErr whenever the last-error slot is non-empty. -/
def Readiness (e : Endpoint) (mask : Nat) : Nat :=
  let result := eventOut &&& mask
  let result :=
    if mask &&& eventIn ≠ 0 then
      if ¬ e.rcvList.isEmpty ∨ e.rcvClosed then result ||| eventIn else result
    else result
  if e.lastError.isSome then result ||| eventErr else result

/-- stack.ControlType values delivered to HandleControlPacket. -/
inductive ControlType where
  | packetTooBig
  | portUnreachable
  | networkUnreachable
  | unknown
deriving DecidableEq, Repr

/-- HandleControlPacket (endpoint.go): a port-unreachable signal while
CONNECTED latches connection-refused in the last-error slot and notifies
EventErr; everything else is ignored.  The second component is the notified
event mask. -/
def HandleControlPacket (e : Endpoint) (typ : ControlType) : Endpoint × Nat :=
  if typ = .portUnreachable then
    if e.state = .connected then
      ({ e with lastError := some .connectionRefused }, eventErr)
    else (e, 0)
  else (e, 0)

/-! ## HandlePacket (the receive path) -/

/-- HandlePacket (endpoint.go): drop malformed packets (declared length
larger than payload + header), cap the payload to the declared payload
length (uint16 arithmetic), verify the checksum, then under the receive
lock drop when not ready/closed or when the byte count has reached the
capacity, else append the packet record and add its size.  The second
component is the notified event mask (EventIn when the queue was empty). -/
def HandlePacket (e : Endpoint) (id : TransportEndpointID) (pkt : RecvPacketBuffer)
    (now : Int) : Endpoint × Nat :=
  let hdr := pkt.transportHeader
  if hdr.length > pkt.data.length + udpMinimumSize then
    ({ e with statMalformed := e.statMalformed + 1 }, 0)
  else
    let data := pkt.data.take ((hdr.length + 65536 - udpMinimumSize) % 65536)
    if ¬ verifyChecksum hdr { pkt with data := data } then
      ({ e with statChecksumErrors := e.statChecksumErrors + 1 }, 0)
    else
      let e := { e with statPacketsReceived := e.statPacketsReceived + 1 }
      if ¬ e.rcvReady ∨ e.rcvClosed then
        ({ e with statClosedReceiver := e.statClosedReceiver + 1 }, 0)
      else if e.rcvBufSize ≥ e.rcvBufSizeMax then
        ({ e with statReceiveBufferOverflow := e.statReceiveBufferOverflow + 1 }, 0)
      else
        let wasEmpty := e.rcvBufSize = 0
        let packet : UdpPacket :=
          { senderAddress := { nic := pkt.nicID, addr := id.remoteAddress, port := hdr.srcPort }
            destinationAddress := { nic := pkt.nicID, addr := id.localAddress, port := hdr.dstPort }
            data := data
            tos := if pkt.networkProtocolNumber = ipv4ProtocolNumber ∨
                      pkt.networkProtocolNumber = ipv6ProtocolNumber then pkt.tosField else 0
            packetInfoLocalAddr := pkt.networkDestinationAddress
            packetInfoDestinationAddr := pkt.networkDestinationAddress
            packetInfoNIC := pkt.nicID
            timestamp := now }
        ({ e with
           rcvList := e.rcvList ++ [packet]
           rcvBufSize := e.rcvBufSize + (data.length : Int) },
         if wasEmpty then eventIn else 0)

/-- Fold HandlePacket over a sequence of arriving datagrams. -/
def handlePackets (e : Endpoint) (now : Int) :
    List (TransportEndpointID × RecvPacketBuffer) → Endpoint
  | [] => e
  | p :: rest => handlePackets (HandlePacket e p.1 p.2 now).1 now rest

/-- Capacity-drop predicate following the claim's words: a datagram is
"dropped for capacity" when it passes the malformed and checksum gates, the
queue is ready and not closed, and the byte count has already reached the
capacity. -/
def droppedForCapacity (e : Endpoint) (pkt : RecvPacketBuffer) : Bool :=
  decide (pkt.transportHeader.length ≤ pkt.data.length + udpMinimumSize) &&
  verifyChecksum pkt.transportHeader
    { pkt with data := pkt.data.take ((pkt.transportHeader.length + 65536 - udpMinimumSize) % 65536) } &&
  e.rcvReady && !e.rcvClosed &&
  decide (e.rcvBufSizeMax ≤ e.rcvBufSize)

/-- Count the datagrams of a sequence that are dropped for capacity, against
the endpoint state evolving under HandlePacket. -/
def countCapacityDrops (e : Endpoint) (now : Int) :
    List (TransportEndpointID × RecvPacketBuffer) → Nat
  | [] => 0
  | p :: rest =>
    (if droppedForCapacity e p.2 then 1 else 0) +
      countCapacityDrops (HandlePacket e p.1 p.2 now).1 now rest

/-! ## Stack-facing operations

The stack registry, routing and address canonicalisation live outside this
file's source; their results for the single call an operation makes are
passed in as an `Oracle`, and the calls the endpoint issues are recorded as
`StackEffect`s so that releases and registrations are observable. -/

/-- Results of the external stack calls an endpoint operation may make:
ReservePort, RegisterTransportEndpoint, AddrNetProtoLocked (address
canonicalisation, §4.7), FindRoute, CheckLocalAddress, IsSubnetBroadcast. -/
structure Oracle where
  reserveErr : Option TcpipError := none
  reservedPort : Nat := 0
  registerErr : Option TcpipError := none
  v4MappedErr : Option TcpipError := none
  v4MappedAddr : FullAddress := {}
  v4MappedProto : Nat := ipv4ProtocolNumber
  findRouteErr : Option TcpipError := none
  findRouteVal : Route := {}
  checkLocalAddressNIC : NICID := 0
  isSubnetBroadcast : Bool := false
deriving DecidableEq, Repr

/-- Calls issued to the stack by an endpoint operation. -/
inductive StackEffect where
  | reservePort (port : Nat)
  | releasePort (addr : Address) (port : Nat)
  | registerEndpoint (id : TransportEndpointID)
  | unregisterEndpoint (id : TransportEndpointID) (flags : PortFlags)
  | releaseRoute
deriving DecidableEq, Repr

/-- registerWithStack (endpoint.go): reserve a port when the endpoint has
none, set boundPortFlags from portFlags, register; on registration failure
release the port and reset boundPortFlags. Returns ((id, bindToDevice,
error), endpoint, effects). -/
def registerWithStack (e : Endpoint) (o : Oracle) (_nicID : NICID)
    (_netProtos : List Nat) (id0 : TransportEndpointID) :
    (TransportEndpointID × NICID × Option TcpipError) × Endpoint × List StackEffect :=
  if e.id.localPort = 0 then
    match o.reserveErr with
    | some err => ((id0, e.bindToDevice, some err), e, [])
    | none =>
      let id1 := { id0 with localPort := o.reservedPort }
      let e1 := { e with boundPortFlags := e.portFlags }
      match o.registerErr with
      | some err =>
        ((id1, e.bindToDevice, some err), { e1 with boundPortFlags := {} },
         [.reservePort o.reservedPort, .releasePort id1.localAddress id1.localPort])
      | none =>
        ((id1, e.bindToDevice, none), e1,
         [.reservePort o.reservedPort, .registerEndpoint id1])
  else
    let e1 := { e with boundPortFlags := e.portFlags }
    match o.registerErr with
    | some err =>
      ((id0, e.bindToDevice, some err), { e1 with boundPortFlags := {} },
       [.releasePort id0.localAddress id0.localPort])
    | none =>
      ((id0, e.bindToDevice, none), e1, [.registerEndpoint id0])

/-- Disconnect (endpoint.go): a no-op unless CONNECTED.  When the endpoint
is excluded from the ephemeral case (`BindNICID != 0 || ID.LocalAddress ==
""`), re-register under the local identity with the remote fields dropped
and transition to BOUND; otherwise release the (non-zero) local port and
transition to INITIAL.  In both cases the old registration is removed and
the route is released. -/
def Disconnect (e : Endpoint) (o : Oracle) : Option TcpipError × Endpoint × List StackEffect :=
  if e.state ≠ .connected then (none, e, [])
  else
    let boundPortFlags := e.boundPortFlags
    if e.bindNICID ≠ 0 ∨ e.id.localAddress = [] then
      let id0 : TransportEndpointID :=
        { localPort := e.id.localPort, localAddress := e.id.localAddress }
      match registerWithStack e o e.registerNICID e.effectiveNetProtos id0 with
      | ((_, _, some err), e1, effs) => (some err, e1, effs)
      | ((id, btd, none), e1, effs) =>
        let e2 := { e1 with state := EndpointState.bound }
        let bpf := e2.boundPortFlags
        (none,
         { e2 with
           id := id
           boundBindToDevice := btd
           route := none
           dstPort := 0 },
         effs ++ [.unregisterEndpoint e.id bpf, .releaseRoute])
    else
      let (e1, effs1) :=
        if e.id.localPort ≠ 0 then
          ({ e with boundPortFlags := {} },
           [StackEffect.releasePort e.id.localAddress e.id.localPort])
        else (e, [])
      (none,
       { e1 with
         state := EndpointState.initial
         id := {}
         boundBindToDevice := 0
         route := none
         dstPort := 0 },
       effs1 ++ [.unregisterEndpoint e.id boundPortFlags, .releaseRoute])

/-- header.IPv4Broadcast. -/
def ipv4Broadcast : Address := [255, 255, 255, 255]

/-- header.IsV4MulticastAddress: 4 bytes with `addr[0] &&& 0xf0 == 0xe0`. -/
def isV4MulticastAddress : Address → Bool
  | [b, _, _, _] => b &&& 240 == 224
  | _ => false

/-- header.IsV6MulticastAddress: 16 bytes with `addr[0] == 0xff`. -/
def isV6MulticastAddress (a : Address) : Bool :=
  a.length == 16 && a.headD 0 == 255

/-- isBroadcastOrMulticast (endpoint.go); the stack's IsSubnetBroadcast
answer comes from the oracle. -/
def isBroadcastOrMulticast (o : Oracle) (addr : Address) : Bool :=
  addr == ipv4Broadcast || isV4MulticastAddress addr || isV6MulticastAddress addr ||
    o.isSubnetBroadcast

/-- connectRoute (endpoint.go): blank the local address when it is broadcast
or multicast, substitute the configured multicast NIC/address for a
multicast destination, and resolve a route (oracle). -/
def connectRoute (e : Endpoint) (o : Oracle) (nicID0 : NICID) (addr : FullAddress) :
    Option TcpipError × Route × NICID :=
  let localAddr := e.id.localAddress
  let localAddr := if isBroadcastOrMulticast o localAddr then [] else localAddr
  let (nicID, _localAddr) :=
    if isV4MulticastAddress addr.addr || isV6MulticastAddress addr.addr then
      let nicID := if nicID0 = 0 then e.multicastNICID else nicID0
      let localAddr := if localAddr = [] ∧ nicID = 0 then e.multicastAddr else localAddr
      (nicID, localAddr)
    else (nicID0, localAddr)
  match o.findRouteErr with
  | some err => (some err, {}, 0)
  | none => (none, o.findRouteVal, nicID)

/-- bindLocked (endpoint.go): refuse outside INITIAL, canonicalise the
address (oracle), expand the effective protocols for a dual-stack wildcard
bind, validate a non-empty unicast local address against the stack, reserve
and register, then record the identity, mark BOUND and set rcvReady. -/
def bindLocked (e : Endpoint) (o : Oracle) (_addr0 : FullAddress) :
    Option TcpipError × Endpoint × List StackEffect :=
  if e.state ≠ .initial then (some .invalidEndpointState, e, [])
  else
    match o.v4MappedErr with
    | some err => (some err, e, [])
    | none =>
      let addr := o.v4MappedAddr
      let netProto := o.v4MappedProto
      let netProtos :=
        if netProto = ipv6ProtocolNumber ∧ e.v6only = false ∧ addr.addr = [] then
          [ipv6ProtocolNumber, ipv4ProtocolNumber]
        else [netProto]
      let nicCheck : Option NICID :=
        if addr.addr ≠ [] ∧ ¬ isBroadcastOrMulticast o addr.addr then
          if o.checkLocalAddressNIC = 0 then none else some o.checkLocalAddressNIC
        else some addr.nic
      match nicCheck with
      | none => (some .badLocalAddress, e, [])
      | some nicID =>
        let id0 : TransportEndpointID :=
          { localPort := addr.port, localAddress := addr.addr }
        match registerWithStack e o nicID netProtos id0 with
        | ((_, _, some err), e1, effs) => (some err, e1, effs)
        | ((id, btd, none), e1, effs) =>
          (none,
           { e1 with
             id := id
             boundBindToDevice := btd
             registerNICID := nicID
             effectiveNetProtos := netProtos
             state := EndpointState.bound
             rcvReady := true },
           effs)

/-- Bind (endpoint.go): bindLocked, then save the effective NIC id. -/
def Bind (e : Endpoint) (o : Oracle) (addr : FullAddress) :
    Option TcpipError × Endpoint × List StackEffect :=
  match bindLocked e o addr with
  | (some err, e1, effs) => (some err, e1, effs)
  | (none, e1, effs) => (none, { e1 with bindNICID := e1.registerNICID }, effs)

/-- The NIC/local-port selection of Connect's state switch; `none` encodes
the paths that fail with invalid-endpoint-state (a conflicting bound NIC, or
a state outside INITIAL/BOUND/CONNECTED). -/
def connectNicPort (e : Endpoint) (nic0 : NICID) : Option (NICID × Nat) :=
  match e.state with
  | .initial => some (nic0, 0)
  | .bound | .connected =>
    if e.bindNICID = 0 then some (nic0, e.id.localPort)
    else if nic0 ≠ 0 ∧ nic0 ≠ e.bindNICID then none
    else some (e.bindNICID, e.id.localPort)
  | .closed => none

/-- Connect (endpoint.go): reject port 0 and illegal states, canonicalise,
resolve a route, build the new identifier (adopting the route's local
address from INITIAL), expand the effective protocols, register the new
identifier before unregistering the old one, then commit the route clone,
remote port and CONNECTED state and mark the queue ready. -/
def Connect (e : Endpoint) (o : Oracle) (addr0 : FullAddress) :
    Option TcpipError × Endpoint × List StackEffect :=
  if addr0.port = 0 then (some .invalidEndpointState, e, [])
  else
    match connectNicPort e addr0.nic with
    | none => (some .invalidEndpointState, e, [])
    | some (nicID0, localPort) =>
      match o.v4MappedErr with
      | some err => (some err, e, [])
      | none =>
        let addr := o.v4MappedAddr
        let netProto := o.v4MappedProto
        match connectRoute e o nicID0 addr with
        | (some err, _, _) => (some err, e, [])
        | (none, r, nicID) =>
          let id : TransportEndpointID :=
            { localAddress := if e.state = .initial then r.localAddress else e.id.localAddress
              localPort := localPort
              remotePort := addr.port
              remoteAddress := r.remoteAddress }
          let netProtos :=
            if netProto = ipv6ProtocolNumber ∧ e.v6only = false then
              [ipv4ProtocolNumber, ipv6ProtocolNumber]
            else [netProto]
          let oldPortFlags := e.boundPortFlags
          match registerWithStack e o nicID netProtos id with
          | ((_, _, some err), e1, effs) => (some err, e1, effs)
          | ((id, btd, none), e1, effs) =>
            let effs2 :=
              if e.id.localPort ≠ 0 then
                effs ++ [StackEffect.unregisterEndpoint e.id oldPortFlags]
              else effs
            (none,
             { e1 with
               id := id
               boundBindToDevice := btd
               route := some r
               dstPort := addr.port
               registerNICID := nicID
               effectiveNetProtos := netProtos
               state := EndpointState.connected
               rcvReady := true },
             effs2)

/-- Shutdown (endpoint.go): only BOUND and CONNECTED endpoints may shut
down; record the flags; shutdown-read closes the receive queue and, on the
closed transition, notifies EventIn.  The third component is the notified
event mask. -/
def Shutdown (e : Endpoint) (flags : Nat) : Option TcpipError × Endpoint × Nat :=
  if e.state ≠ .bound ∧ e.state ≠ .connected then (some .notConnected, e, 0)
  else
    let e1 := { e with shutdownFlags := e.shutdownFlags ||| flags }
    if flags &&& shutdownRead ≠ 0 then
      let wasClosed := e1.rcvClosed
      let e2 := { e1 with rcvClosed := true }
      (none, e2, if wasClosed then 0 else eventIn)
    else (none, e1, 0)

/-! ## Integer socket options -/

/-- tcpip.SockOptInt values handled by the endpoint. -/
inductive SockOptInt where
  | mtuDiscover
  | multicastTTL
  | ttl
  | ipv4TOS
  | ipv6TrafficClass
  | receiveBufferSize
  | sendBufferSize
  | receiveQueueSize
deriving DecidableEq, Repr

/-- A stack send/receive buffer-size option triple (Min, Default, Max). -/
structure BufferSizeOption where
  sizeMin : Int := 0
  sizeDefault : Int := 0
  sizeMax : Int := 0
deriving DecidableEq, Repr

/-- SetSockOptInt (endpoint.go).  `v` is a Go int; the `uint8(v)` stores are
`(v % 256).toNat`.  Buffer sizes are clamped to the stack-provided [min,
max] (`rs`, `ss`).  Options without a case fall through and return nil. -/
def SetSockOptInt (e : Endpoint) (rs ss : BufferSizeOption) (opt : SockOptInt) (v : Int) :
    Option TcpipError × Endpoint :=
  match opt with
  | .mtuDiscover =>
    if v ≠ pmtuDiscoveryDont then (some .notSupported, e) else (none, e)
  | .multicastTTL => (none, { e with multicastTTL := (v % 256).toNat })
  | .ttl => (none, { e with ttl := (v % 256).toNat })
  | .ipv4TOS => (none, { e with sendTOS := (v % 256).toNat })
  | .ipv6TrafficClass => (none, { e with sendTOS := (v % 256).toNat })
  | .receiveBufferSize =>
    let v := if v < rs.sizeMin then rs.sizeMin else v
    let v := if v > rs.sizeMax then rs.sizeMax else v
    (none, { e with rcvBufSizeMax := v })
  | .sendBufferSize =>
    let v := if v < ss.sizeMin then ss.sizeMin else v
    let v := if v > ss.sizeMax then ss.sizeMax else v
    (none, { e with sndBufSizeMax := v })
  | .receiveQueueSize => (none, e)

/-- GetSockOptInt (endpoint.go); returns (value, error). -/
def GetSockOptInt (e : Endpoint) (opt : SockOptInt) : Int × Option TcpipError :=
  match opt with
  | .ipv4TOS => ((e.sendTOS : Int), none)
  | .ipv6TrafficClass => ((e.sendTOS : Int), none)
  | .mtuDiscover => (pmtuDiscoveryDont, none)
  | .multicastTTL => ((e.multicastTTL : Int), none)
  | .receiveQueueSize =>
    match e.rcvList with
    | [] => (0, none)
    | p :: _ => ((p.data.length : Int), none)
  | .sendBufferSize => (e.sndBufSizeMax, none)
  | .receiveBufferSize => (e.rcvBufSizeMax, none)
  | .ttl => ((e.ttl : Int), none)

/-! ## Claim C9 -/

/-- Claim C9 (confirmed): the send-TOS and send-TClass integer options alias
one storage field (sendTOS): after SetSockOptInt(IPv4TOSOption, v) the
getter for IPv6TrafficClassOption returns v mod 256 and vice versa, both
setters succeed, and setting either option overwrites the other. -/
theorem c9_tos_tclass_alias (e : Endpoint) (rs ss : BufferSizeOption) (v w : Int) :
    (SetSockOptInt e rs ss .ipv4TOS v).1 = none ∧
    (SetSockOptInt e rs ss .ipv6TrafficClass v).1 = none ∧
    (GetSockOptInt (SetSockOptInt e rs ss .ipv4TOS v).2 .ipv6TrafficClass).1 = v % 256 ∧
    (GetSockOptInt (SetSockOptInt e rs ss .ipv6TrafficClass v).2 .ipv4TOS).1 = v % 256 ∧
    (GetSockOptInt (SetSockOptInt (SetSockOptInt e rs ss .ipv4TOS v).2
        rs ss .ipv6TrafficClass w).2 .ipv4TOS).1 = w % 256 ∧
    (GetSockOptInt (SetSockOptInt (SetSockOptInt e rs ss .ipv6TrafficClass v).2
        rs ss .ipv4TOS w).2 .ipv6TrafficClass).1 = w % 256 := by
  have h : ∀ u : Int, ((u % 256).toNat : Int) = u % 256 := fun u =>
    Int.toNat_of_nonneg (Int.emod_nonneg u (by norm_num))
  simp [SetSockOptInt, GetSockOptInt, h]

/-! ## Claim C10 -/

/-- Claim C10 (confirmed): SetSockOptInt for the unicast-TTL and
multicast-TTL options accepts every int value without error and stores it
truncated to 8 bits; the getter returns v mod 256. -/
theorem c10_ttl_truncation (e : Endpoint) (rs ss : BufferSizeOption) (v : Int) :
    (SetSockOptInt e rs ss .ttl v).1 = none ∧
    (SetSockOptInt e rs ss .multicastTTL v).1 = none ∧
    (GetSockOptInt (SetSockOptInt e rs ss .ttl v).2 .ttl).1 = v % 256 ∧
    (GetSockOptInt (SetSockOptInt e rs ss .multicastTTL v).2 .multicastTTL).1 = v % 256 := by
  have h : ∀ u : Int, ((u % 256).toNat : Int) = u % 256 := fun u =>
    Int.toNat_of_nonneg (Int.emod_nonneg u (by norm_num))
  simp [SetSockOptInt, GetSockOptInt, h]

/-! ## Claim C7 -/

/-- Claim C7 (confirmed): the UDP checksum field is computed and set exactly
when the route requires TX transport checksums and (the no-checksum option
is disabled or the network protocol is IPv6); on IPv6 it is computed
regardless of the no-checksum option; on IPv4 with no-checksum enabled, or
with TX checksumming not required, the field is left zero. -/
theorem c7_send_checksum_condition (r : Route) (data : List Nat)
    (localPort remotePort ttlArg tosArg : Nat) (udt noChecksum : Bool) :
    ((sendUDP r data localPort remotePort ttlArg udt tosArg noChecksum).checksumField =
      if r.requiresTXTransportChecksum = true ∧
          (noChecksum = false ∨ r.netProto = ipv6ProtocolNumber) then
        65535 - udpXsum r.localAddress r.remoteAddress data localPort remotePort
          ((udpMinimumSize + data.length) % 65536) 0
      else 0) ∧
    (r.requiresTXTransportChecksum = true → r.netProto = ipv6ProtocolNumber →
      (sendUDP r data localPort remotePort ttlArg udt tosArg noChecksum).checksumField =
        65535 - udpXsum r.localAddress r.remoteAddress data localPort remotePort
          ((udpMinimumSize + data.length) % 65536) 0) ∧
    (r.netProto = ipv4ProtocolNumber → noChecksum = true →
      (sendUDP r data localPort remotePort ttlArg udt tosArg noChecksum).checksumField = 0) ∧
    (r.requiresTXTransportChecksum = false →
      (sendUDP r data localPort remotePort ttlArg udt tosArg noChecksum).checksumField = 0) := by
  cases hr : r.requiresTXTransportChecksum <;> cases hn : noChecksum <;>
    by_cases hp : r.netProto = ipv6ProtocolNumber <;>
      simp [sendUDP, hr, hn, hp, ipv4ProtocolNumber, ipv6ProtocolNumber] <;>
      simp [ipv6ProtocolNumber] at hp <;>
      omega

/-- Route for the C7 witness: IPv6 with TX checksums required. -/
def c7r : Route :=
  { localAddress := List.replicate 16 1
    remoteAddress := List.replicate 16 2
    netProto := ipv6ProtocolNumber
    requiresTXTransportChecksum := true }

/-- Witness for C7: on the concrete IPv6 route the checksum is computed even
with the no-checksum option enabled. -/
theorem c7_send_checksum_condition_witness :
    (sendUDP c7r [1, 2, 3] 5 9 64 false 0 true).checksumField =
      65535 - udpXsum c7r.localAddress c7r.remoteAddress [1, 2, 3] 5 9
        ((udpMinimumSize + [1, 2, 3].length) % 65536) 0 :=
  (c7_send_checksum_condition c7r [1, 2, 3] 5 9 64 0 false true).2.1 rfl rfl

/-! ## Claim C2 -/

/-- Endpoint for the C2 counterexample: a pending asynchronous error and
nothing else. -/
def c2e : Endpoint := { lastError := some .connectionRefused }

/-- Claim C2 counterexample: with a pending last error and an interest mask
of 0, Readiness returns the EventErr bit (bit 3) although the caller's mask
does not contain it, so the returned bits are not all masked by the
interest set. -/
theorem c2_counterexample :
    Readiness c2e 0 = 8 ∧
    (Readiness c2e 0).testBit 3 = true ∧ (0 : Nat).testBit 3 = false := by decide

theorem testBit_small_false (N : Nat) (hN : N < 16) (hN1 : N.testBit 1 = false) :
    ∀ i, i ≠ 0 → i ≠ 2 → i ≠ 3 → N.testBit i = false := by
  intro i h0 h2 h3
  match i with
  | 0 => exact absurd rfl h0
  | 1 => exact hN1
  | 2 => exact absurd rfl h2
  | 3 => exact absurd rfl h3
  | (n + 4) =>
    apply Nat.testBit_eq_false_of_lt
    calc N < 16 := hN
    _ = 2 ^ 4 := by norm_num
    _ ≤ 2 ^ (n + 4) := Nat.pow_le_pow_right (by norm_num) (by omega)

/-- Claim C2 (corrected): Readiness returns the writable bit masked by the
interest set, the readable bit iff requested and the receive list is
non-empty or the queue closed, and the error bit iff the last-error slot is
non-empty regardless of the interest mask; no other bits are returned. -/
theorem c2_readiness_amended (e : Endpoint) (mask : Nat) :
    (Readiness e mask).testBit 2 = mask.testBit 2 ∧
    ((Readiness e mask).testBit 0 = true ↔
      (mask.testBit 0 = true ∧ (e.rcvList ≠ [] ∨ e.rcvClosed = true))) ∧
    ((Readiness e mask).testBit 3 = true ↔ e.lastError.isSome = true) ∧
    (∀ i, i ≠ 0 → i ≠ 2 → i ≠ 3 → (Readiness e mask).testBit i = false) := by
  have hland : 4 &&& mask = 4 * (mask / 4 % 2) := by
    have h := Nat.two_pow_and mask 2
    rw [Nat.testBit_to_div_mod] at h
    have h2 : (2 : Nat) ^ 2 = 4 := by norm_num
    rw [h2] at h
    by_cases hm : mask / 4 % 2 = 1
    · rw [hm] at h ⊢
      simp at h
      omega
    · have hm0 : mask / 4 % 2 = 0 := by omega
      rw [hm0] at h ⊢
      simp at h
      omega
  have ht2 : mask.testBit 2 = decide (mask / 4 % 2 = 1) := by
    rw [Nat.testBit_to_div_mod] <;> norm_num
  have ht0 : mask.testBit 0 = decide (mask % 2 = 1) := by
    rw [Nat.testBit_to_div_mod] <;> norm_num
  have hin : mask &&& 1 = mask % 2 := Nat.and_one_is_mod mask
  have hb2 : mask / 4 % 2 = 0 ∨ mask / 4 % 2 = 1 := by omega
  have hb0 : mask % 2 = 0 ∨ mask % 2 = 1 := by omega
  rcases hb2 with hb2 | hb2 <;> rcases hb0 with hb0 | hb0 <;>
    rcases hE : e.lastError with _ | err <;>
    rcases hL : e.rcvList with _ | ⟨p, rest⟩ <;>
    cases hC : e.rcvClosed <;>
    refine ⟨?_, ?_, ?_, testBit_small_false _ (by
        simp [Readiness, eventIn, eventOut, eventErr, hland, hin, hE, hL, hC, hb2, hb0] <;>
          decide) (by
        simp [Readiness, eventIn, eventOut, eventErr, hland, hin, hE, hL, hC, hb2, hb0] <;>
          decide)⟩ <;>
      simp [Readiness, eventIn, eventOut, eventErr, hland, hin, hE, hL, hC, hb2, hb0,
        ht2, ht0] <;>
      decide

/-- Endpoint for the C2 witness. -/
def c2w : Endpoint := { rcvClosed := true, lastError := some .connectionRefused }

/-- Witness for C2: the amended Readiness description evaluated at a
concrete endpoint, mask and bit index. -/
theorem c2_readiness_amended_witness :
    (Readiness c2w 9).testBit 5 = false :=
  (c2_readiness_amended c2w 9).2.2.2 5 (by decide) (by decide) (by decide)

/-! ## Claim C8 -/

/-- Claim C8 (confirmed): the lifecycle guards hold: Bind outside INITIAL
fails with invalid-endpoint-state, Connect outside INITIAL/BOUND/CONNECTED
fails with invalid-endpoint-state, Shutdown outside BOUND/CONNECTED fails
with not-connected, and each illegal operation returns its error with the
endpoint unchanged and no stack calls issued. -/
theorem c8_transition_guards (e : Endpoint) (o : Oracle) (addr : FullAddress) (flags : Nat) :
    (e.state ≠ .initial → Bind e o addr = (some .invalidEndpointState, e, [])) ∧
    (e.state = .closed → Connect e o addr = (some .invalidEndpointState, e, [])) ∧
    ((e.state ≠ .bound ∧ e.state ≠ .connected) →
      Shutdown e flags = (some .notConnected, e, 0)) := by
  refine ⟨?_, ?_, ?_⟩
  · intro h
    simp [Bind, bindLocked, h]
  · intro h
    by_cases hp : addr.port = 0
    · simp [Connect, hp]
    · simp [Connect, connectNicPort, hp, h]
  · intro h
    simp [Shutdown, h.1, h.2]

/-- A closed endpoint for the C8 witness. -/
def c8e : Endpoint := { state := .closed }

/-- Witness for C8: all three guards evaluated on a concrete closed
endpoint. -/
theorem c8_transition_guards_witness :
    Bind c8e {} { port := 5 } = (some .invalidEndpointState, c8e, []) ∧
    Connect c8e {} { addr := [10, 0, 0, 1], port := 9 } = (some .invalidEndpointState, c8e, []) ∧
    Shutdown c8e 3 = (some .notConnected, c8e, 0) :=
  ⟨(c8_transition_guards c8e {} { port := 5 } 3).1 (by decide),
   (c8_transition_guards c8e {} { addr := [10, 0, 0, 1], port := 9 } 3).2.1 rfl,
   (c8_transition_guards c8e {} { port := 5 } 3).2.2 (by decide)⟩

/-! ## Claim C5 -/

/-- Claim C5 (confirmed): a port-unreachable control signal while CONNECTED
latches connection-refused in the single last-error slot and notifies the
error event; the next Read returns connection-refused exactly once
(clearing the slot), and a subsequent Read returns would-block on an empty
open queue or the head datagram's payload on a non-empty one. -/
theorem c5_port_unreachable_last_error (e : Endpoint) (he : e.state = .connected) :
    ((HandleControlPacket e .portUnreachable).1.lastError = some .connectionRefused) ∧
    ((HandleControlPacket e .portUnreachable).2 = eventErr) ∧
    ((Read (HandleControlPacket e .portUnreachable).1).1.errorOf = some .connectionRefused) ∧
    ((Read (HandleControlPacket e .portUnreachable).1).2.lastError = none) ∧
    ((HandleControlPacket (HandleControlPacket e .portUnreachable).1
        .portUnreachable).1.lastError = some .connectionRefused) ∧
    (e.rcvList = [] → e.rcvClosed = false →
      (Read (Read (HandleControlPacket e .portUnreachable).1).2).1.errorOf =
        some .wouldBlock) ∧
    (∀ p rest, e.rcvList = p :: rest →
      (Read (Read (HandleControlPacket e .portUnreachable).1).2).1.payloadOf =
        some p.data) := by
  have h1 : HandleControlPacket e .portUnreachable =
      ({ e with lastError := some .connectionRefused }, eventErr) := by
    simp [HandleControlPacket, he]
  refine ⟨by simp [h1], by simp [h1], ?_, ?_, ?_, ?_, ?_⟩
  · simp [h1, Read, LastError, ReadResult.errorOf]
  · simp [h1, Read, LastError]
  · simp [h1, HandleControlPacket, he]
  · intro hl hc
    simp [h1, Read, LastError, hl, hc, ReadResult.errorOf]
  · intro p rest hl
    simp [h1, Read, LastError, hl, ReadResult.payloadOf]

/-- A connected endpoint with an empty receive queue for the C5 witness. -/
def c5e : Endpoint := { state := .connected, rcvReady := true, route := some {} }

/-- Witness for C5: on the concrete connected endpoint the first Read after
the control packet returns connection-refused and the second returns
would-block. -/
theorem c5_port_unreachable_last_error_witness :
    ((Read (HandleControlPacket c5e .portUnreachable).1).1.errorOf =
      some .connectionRefused) ∧
    ((Read (Read (HandleControlPacket c5e .portUnreachable).1).2).1.errorOf =
      some .wouldBlock) :=
  ⟨(c5_port_unreachable_last_error c5e rfl).2.2.1,
   (c5_port_unreachable_last_error c5e rfl).2.2.2.2.2.1 rfl rfl⟩

/-! ## Claim C6 -/

/-- Claim C6 (confirmed): with no pending asynchronous error, Read on an
empty receive list returns closed-for-receive when the queue is closed and
would-block when it is not; on a non-empty list it removes the head record
(FIFO), subtracts its payload size from the byte count, and returns the
head's payload, leaving the rest of the queue unchanged. -/
theorem c6_read (e : Endpoint) (he : e.lastError = none) :
    (e.rcvList = [] → e.rcvClosed = true → (Read e).1 = .err .closedForReceive) ∧
    (e.rcvList = [] → e.rcvClosed = false → (Read e).1 = .err .wouldBlock) ∧
    (∀ p rest, e.rcvList = p :: rest →
      (Read e).1.payloadOf = some p.data ∧
      (Read e).2.rcvList = rest ∧
      (Read e).2.rcvBufSize = e.rcvBufSize - (p.data.length : Int)) := by
  refine ⟨?_, ?_, ?_⟩
  · intro hl hc
    simp [Read, LastError, he, hl, hc]
  · intro hl hc
    simp [Read, LastError, he, hl, hc]
  · intro p rest hl
    simp [Read, LastError, he, hl, ReadResult.payloadOf]

/-- The queued packet of the C6 witness. -/
def c6p : UdpPacket := { data := [1, 2, 3] }

/-- An endpoint holding one 3-byte datagram for the C6 witness. -/
def c6e : Endpoint := { rcvReady := true, rcvList := [c6p], rcvBufSize := 3 }

/-- Witness for C6: reading the concrete endpoint pops the head datagram
and adjusts the byte count. -/
theorem c6_read_witness :
    (Read c6e).1.payloadOf = some c6p.data ∧
    (Read c6e).2.rcvList = [] ∧
    (Read c6e).2.rcvBufSize = c6e.rcvBufSize - (c6p.data.length : Int) :=
  (c6_read c6e rfl).2.2 c6p [] rfl

/-! ## Claim C1 -/

/-- A CONNECTED endpoint whose bound NIC is zero and whose local address is
non-empty: exactly the shape an ephemeral bind (connect from INITIAL)
produces, since the implicit bind adopts the route's local address. -/
def c1e : Endpoint :=
  { state := .connected
    id := { localPort := 5, localAddress := [1, 2, 3, 4], remotePort := 9,
            remoteAddress := [9, 9, 9, 9] }
    bindNICID := 0
    route := some {} }

/-- Claim C1 counterexample: the endpoint is CONNECTED with bound NIC zero
and a NON-EMPTY local address, so the claim's condition ("bound NIC non-zero
or local address non-empty") predicts a transition to BOUND; the code
instead releases the port and moves to INITIAL — the code's ephemeral test
is `BindNICID != 0 || ID.LocalAddress == \x22\x22`, i.e. local address
EMPTY, not non-empty. -/
theorem c1_counterexample :
    c1e.state = .connected ∧ c1e.bindNICID = 0 ∧ c1e.id.localAddress ≠ [] ∧
    (Disconnect c1e {}).2.1.state = .initial ∧
    (Disconnect c1e {}).2.1.state ≠ .bound ∧
    StackEffect.releasePort c1e.id.localAddress c1e.id.localPort ∈
      (Disconnect c1e {}).2.2 := by decide

/-- Claim C1 (corrected): from CONNECTED, Disconnect transitions to BOUND
(re-registering under the original local identity with the remote fields
dropped) exactly when the bound NIC is non-zero or the local address is
EMPTY (the wildcard; an ephemeral bind adopts the route's non-empty local
address and is excluded); otherwise it releases the port and transitions to
INITIAL.  In both cases the route is released. -/
theorem c1_disconnect_amended (e : Endpoint) (o : Oracle)
    (hc : e.state = .connected) (hp : e.id.localPort ≠ 0) (hreg : o.registerErr = none) :
    ((e.bindNICID ≠ 0 ∨ e.id.localAddress = []) →
      (Disconnect e o).1 = none ∧
      (Disconnect e o).2.1.state = .bound ∧
      (Disconnect e o).2.1.id =
        { localPort := e.id.localPort, localAddress := e.id.localAddress } ∧
      StackEffect.registerEndpoint
        { localPort := e.id.localPort, localAddress := e.id.localAddress } ∈
        (Disconnect e o).2.2 ∧
      (Disconnect e o).2.1.route = none ∧
      StackEffect.releaseRoute ∈ (Disconnect e o).2.2) ∧
    ((e.bindNICID = 0 ∧ e.id.localAddress ≠ []) →
      (Disconnect e o).1 = none ∧
      (Disconnect e o).2.1.state = .initial ∧
      StackEffect.releasePort e.id.localAddress e.id.localPort ∈ (Disconnect e o).2.2 ∧
      (Disconnect e o).2.1.route = none ∧
      StackEffect.releaseRoute ∈ (Disconnect e o).2.2) := by
  constructor
  · intro hcond
    simp [Disconnect, registerWithStack, hc, hp, hreg, hcond]
  · intro hcond
    have hnot : ¬ (e.bindNICID ≠ 0 ∨ e.id.localAddress = []) := by
      simp [hcond.1, hcond.2]
    simp [Disconnect, hc, hp, hnot]

/-- A CONNECTED endpoint bound to NIC 7 for the C1 witness. -/
def c1w : Endpoint :=
  { state := .connected
    id := { localPort := 5, localAddress := [10, 0, 0, 1], remotePort := 9,
            remoteAddress := [9, 9, 9, 9] }
    bindNICID := 7
    route := some {} }

/-- Witness for C1: disconnecting the concrete NIC-bound endpoint
re-registers the local identity and lands in BOUND with the route
released. -/
theorem c1_disconnect_amended_witness :
    (Disconnect c1w {}).1 = none ∧
    (Disconnect c1w {}).2.1.state = .bound ∧
    (Disconnect c1w {}).2.1.id =
      { localPort := c1w.id.localPort, localAddress := c1w.id.localAddress } ∧
    StackEffect.registerEndpoint
      { localPort := c1w.id.localPort, localAddress := c1w.id.localAddress } ∈
      (Disconnect c1w {}).2.2 ∧
    (Disconnect c1w {}).2.1.route = none ∧
    StackEffect.releaseRoute ∈ (Disconnect c1w {}).2.2 :=
  (c1_disconnect_amended c1w {} rfl (by decide) rfl).1 (Or.inl (by decide))

/-! ## Claim C3 -/

/-- One HandlePacket step: the overflow counter grows by one exactly on a
capacity drop, the capacity setting is untouched, and the byte count either
stays (a drop) or grows by at most the datagram size from a value strictly
below the capacity (an accept). -/
theorem HandlePacket_step (e : Endpoint) (id : TransportEndpointID) (pkt : RecvPacketBuffer)
    (now : Int) :
    (HandlePacket e id pkt now).1.statReceiveBufferOverflow =
      e.statReceiveBufferOverflow + (if droppedForCapacity e pkt then 1 else 0) ∧
    (HandlePacket e id pkt now).1.rcvBufSizeMax = e.rcvBufSizeMax ∧
    ((HandlePacket e id pkt now).1.rcvBufSize = e.rcvBufSize ∨
      (e.rcvBufSize < e.rcvBufSizeMax ∧
       (HandlePacket e id pkt now).1.rcvBufSize ≤ e.rcvBufSize + (pkt.data.length : Int))) := by
  by_cases h1 : pkt.transportHeader.length > pkt.data.length + udpMinimumSize
  · have h1' : ¬ (pkt.transportHeader.length ≤ pkt.data.length + udpMinimumSize) := by omega
    simp [HandlePacket, droppedForCapacity, h1, h1']
  · have h1' : pkt.transportHeader.length ≤ pkt.data.length + udpMinimumSize := by omega
    by_cases h2 : verifyChecksum pkt.transportHeader { pkt with data := pkt.data.take ((pkt.transportHeader.length + 65536 - udpMinimumSize) % 65536) } = true
    · by_cases h3 : ¬ e.rcvReady ∨ e.rcvClosed
      · have h3' : (e.rcvReady && !e.rcvClosed) = false := by
          rcases h3 with h | h <;> simp [h]
        have h3b : e.rcvReady = false ∨ e.rcvClosed = true := by
          rcases h3 with h | h
          · exact Or.inl (by revert h; cases e.rcvReady <;> simp)
          · exact Or.inr h
        simp [HandlePacket, droppedForCapacity, h1, h1', h2, h3b, h3']
      · have hready : e.rcvReady = true := by
          cases hr : e.rcvReady
          · exact absurd (Or.inl (by simp [hr])) h3
          · rfl
        have hclosed : e.rcvClosed = false := by
          cases hcl : e.rcvClosed
          · rfl
          · exact absurd (Or.inr hcl) h3
        by_cases h4 : e.rcvBufSize ≥ e.rcvBufSizeMax
        · simp [HandlePacket, droppedForCapacity, h1, h1', h2, h3, h4, hready, hclosed]
        · have hlen : ((pkt.data.take
              ((pkt.transportHeader.length + 65536 - udpMinimumSize) % 65536)).length : Int) ≤
              (pkt.data.length : Int) := by
            have h := List.length_take
              ((pkt.transportHeader.length + 65536 - udpMinimumSize) % 65536) pkt.data
            omega
          simp [HandlePacket, droppedForCapacity, h1, h1', h2, h3, h4, hready, hclosed]
          omega
    · simp [HandlePacket, droppedForCapacity, h1, h1', h2]

/-- Claim C3 (corrected): over any arriving sequence, every datagram dropped
for capacity increments the receive-buffer-overflow counter and the counter
equals the number of capacity drops; a datagram is enqueued only from a byte
count strictly below the capacity C, so with every datagram of size at most
M the byte count stays below C + M (it can exceed C itself by the excess of
the last accepted datagram). -/
theorem c3_overflow_amended (now : Int) (pkts : List (TransportEndpointID × RecvPacketBuffer))
    (M : Int) :
    ∀ e : Endpoint,
      (∀ p ∈ pkts, ((p.2.data.length : Int) ≤ M)) →
      e.rcvBufSize < e.rcvBufSizeMax + M →
      (handlePackets e now pkts).statReceiveBufferOverflow =
        e.statReceiveBufferOverflow + countCapacityDrops e now pkts ∧
      (handlePackets e now pkts).rcvBufSize <
        (handlePackets e now pkts).rcvBufSizeMax + M := by
  induction pkts with
  | nil =>
    intro e _ hinv
    simpa [handlePackets, countCapacityDrops] using hinv
  | cons p rest ih =>
    intro e hM hinv
    obtain ⟨hov, hmax, hsize⟩ := HandlePacket_step e p.1 p.2 now
    have hM0 : ((p.2.data.length : Int) ≤ M) := hM p (by simp)
    have hM' : ∀ q ∈ rest, ((q.2.data.length : Int) ≤ M) := fun q hq => hM q (by simp [hq])
    have hinv' : (HandlePacket e p.1 p.2 now).1.rcvBufSize <
        (HandlePacket e p.1 p.2 now).1.rcvBufSizeMax + M := by
      rcases hsize with h | ⟨hlt, hle⟩ <;> rw [hmax] <;> omega
    obtain ⟨ih1, ih2⟩ := ih (HandlePacket e p.1 p.2 now).1 hM' hinv'
    constructor
    · simp only [handlePackets, countCapacityDrops]
      rw [ih1, hov]
      omega
    · simpa [handlePackets] using ih2

/-- Endpoint of the C3 counterexample: receive capacity 10 bytes. -/
def c3e : Endpoint := { rcvReady := true, rcvBufSizeMax := 10 }

/-- A valid 20-byte datagram (checksum pre-validated by RX offload). -/
def c3pkt : RecvPacketBuffer :=
  { transportHeader := { length := 28 }, data := List.replicate 20 7,
    rxTransportChecksumValidated := true }

/-- Claim C3 counterexample: a 20-byte datagram arriving at an empty
endpoint with capacity 10 is accepted (the capacity check is
`rcvBufSize >= rcvBufSizeMax` before adding), leaving the byte count at 20,
above the capacity, with no overflow counted. -/
theorem c3_counterexample :
    (HandlePacket c3e {} c3pkt 0).1.rcvBufSize = 20 ∧
    (HandlePacket c3e {} c3pkt 0).1.rcvBufSizeMax = 10 ∧
    (HandlePacket c3e {} c3pkt 0).1.rcvBufSize >
      (HandlePacket c3e {} c3pkt 0).1.rcvBufSizeMax ∧
    (HandlePacket c3e {} c3pkt 0).1.statReceiveBufferOverflow = 0 := by decide

/-- Endpoint of the C3 witness: capacity 8 bytes. -/
def c3w : Endpoint := { rcvReady := true, rcvBufSizeMax := 8 }

/-- Three 4-byte datagrams for the C3 witness; the third overflows. -/
def c3pkts : List (TransportEndpointID × RecvPacketBuffer) :=
  [({}, { transportHeader := { length := 12 }, data := [1, 2, 3, 4],
          rxTransportChecksumValidated := true }),
   ({}, { transportHeader := { length := 12 }, data := [5, 6, 7, 8],
          rxTransportChecksumValidated := true }),
   ({}, { transportHeader := { length := 12 }, data := [9, 9, 9, 9],
          rxTransportChecksumValidated := true })]

/-- Witness for C3: the amended overflow accounting evaluated on the
concrete sequence. -/
theorem c3_overflow_amended_witness :
    (handlePackets c3w 0 c3pkts).statReceiveBufferOverflow =
      c3w.statReceiveBufferOverflow + countCapacityDrops c3w 0 c3pkts ∧
    (handlePackets c3w 0 c3pkts).rcvBufSize <
      (handlePackets c3w 0 c3pkts).rcvBufSizeMax + 4 :=
  c3_overflow_amended 0 c3pkts 4 c3w (by decide) (by decide)

/-! ## Claim C4 -/

/-- The IPv6 route of the C4 counterexample: its pseudo-header makes the
one's-complement sum fold to 0xffff, so the complemented checksum is 0. -/
def c4r : Route :=
  { localAddress := List.replicate 16 0
    remoteAddress := 255 :: 222 :: List.replicate 14 0
    netProto := ipv6ProtocolNumber
    requiresTXTransportChecksum := true }

/-- Claim C4 counterexample: an IPv6 emission with checksums enabled whose
checksum field is zero — sendUDP writes `^xsum` with no all-ones
substitution, so a sum folding to 0xffff yields a zero field on the wire. -/
theorem c4_counterexample :
    c4r.netProto = ipv6ProtocolNumber ∧
    c4r.requiresTXTransportChecksum = true ∧
    (sendUDP c4r [] 0 0 64 false 0 false).checksumField = 0 := by decide

/-- Claim C4 (corrected): every packet emitted with checksums enabled
validates on re-receipt through verifyChecksum (the checksum over
pseudo-header, UDP header and payload folds to 0xffff); and a packet
emitted over IPv6 carries a zero checksum field exactly when the
one's-complement sum over pseudo-header, header and payload itself folds
to 0xffff (it is non-zero in every other case). -/
theorem c4_roundtrip_amended (r : Route) (data : List Nat)
    (localPort remotePort ttlArg tosArg : Nat) (udt noChecksum : Bool)
    (hdata : ∀ b ∈ data, b ≤ 255) (hdlen : data.length + udpMinimumSize ≤ 65535)
    (hla : ∀ b ∈ r.localAddress, b ≤ 255) (hra : ∀ b ∈ r.remoteAddress, b ≤ 255)
    (hlal : r.localAddress.length ≤ 65535) (hral : r.remoteAddress.length ≤ 65535)
    (hlp : localPort ≤ 65535) (hrp : remotePort ≤ 65535)
    (htx : r.requiresTXTransportChecksum = true)
    (hen : noChecksum = false ∨ r.netProto = ipv6ProtocolNumber) :
    (verifyChecksum
      { srcPort := localPort, dstPort := remotePort,
        length := (udpMinimumSize + data.length) % 65536,
        checksumField :=
          (sendUDP r data localPort remotePort ttlArg udt tosArg noChecksum).checksumField }
      { data := data
        rxTransportChecksumValidated := false
        networkProtocolNumber := r.netProto
        networkSourceAddress := r.localAddress
        networkDestinationAddress := r.remoteAddress } = true) ∧
    (r.netProto = ipv6ProtocolNumber →
      ((sendUDP r data localPort remotePort ttlArg udt tosArg noChecksum).checksumField = 0 ↔
        udpXsum r.localAddress r.remoteAddress data localPort remotePort
          ((udpMinimumSize + data.length) % 65536) 0 = 65535)) := by
  have hL : (udpMinimumSize + data.length) % 65536 = udpMinimumSize + data.length :=
    Nat.mod_eq_of_lt (by unfold udpMinimumSize at hdlen ⊢; omega)
  have hLle : (udpMinimumSize + data.length) % 65536 ≤ 65535 := by
    rw [hL]; unfold udpMinimumSize at hdlen ⊢; omega
  have hdatal : data.length ≤ 65535 := by unfold udpMinimumSize at hdlen; omega
  obtain ⟨hS1, hS2, hS3⟩ := udpXsum_spec r.localAddress r.remoteAddress data
    localPort remotePort ((udpMinimumSize + data.length) % 65536) 0
    hla hra hdata hlal hral hdatal hlp hrp hLle (by omega)
  have hcond : (r.requiresTXTransportChecksum &&
      (!noChecksum || r.netProto == ipv6ProtocolNumber)) = true := by
    rcases hen with h | h <;> simp [htx, h]
  have hfield : (sendUDP r data localPort remotePort ttlArg udt tosArg noChecksum).checksumField =
      65535 - udpXsum r.localAddress r.remoteAddress data localPort remotePort
        ((udpMinimumSize + data.length) % 65536) 0 := by
    simp [sendUDP, hcond]
  have hrt := udpXsum_roundtrip r.localAddress r.remoteAddress data localPort remotePort
    ((udpMinimumSize + data.length) % 65536)
    hla hra hdata hlal hral hdatal hlp hrp hLle
  constructor
  · by_cases hskip : (sendUDP r data localPort remotePort ttlArg udt tosArg noChecksum).checksumField = 0 ∧ r.netProto ≠ ipv6ProtocolNumber
    · simp [verifyChecksum, hskip.1, hskip.2]
    · have hrun : ((sendUDP r data localPort remotePort ttlArg udt tosArg
          noChecksum).checksumField != 0 ||
            r.netProto == ipv6ProtocolNumber) = true := by
        rcases Decidable.not_and_iff_or_not.mp hskip with h | h
        · simp [h]
        · simp [Decidable.not_not.mp h]
      simp only [verifyChecksum, Bool.not_false, Bool.true_and, hrun, if_pos]
      rw [hfield, hrt]
      rfl
  · intro _
    rw [hfield]
    omega

/-- The IPv4 route of the C4 witness. -/
def c4wr : Route :=
  { localAddress := [10, 0, 0, 1], remoteAddress := [10, 0, 0, 2],
    netProto := ipv4ProtocolNumber, requiresTXTransportChecksum := true }

/-- Witness for C4: a concrete IPv4 packet with an odd-length payload
emitted with checksums enabled verifies on re-receipt. -/
theorem c4_roundtrip_amended_witness :
    verifyChecksum
      { srcPort := 5, dstPort := 9,
        length := (udpMinimumSize + [1, 2, 3].length) % 65536,
        checksumField := (sendUDP c4wr [1, 2, 3] 5 9 64 false 0 false).checksumField }
      { data := [1, 2, 3]
        rxTransportChecksumValidated := false
        networkProtocolNumber := c4wr.netProto
        networkSourceAddress := c4wr.localAddress
        networkDestinationAddress := c4wr.remoteAddress } = true :=
  (c4_roundtrip_amended c4wr [1, 2, 3] 5 9 64 0 false false
    (by decide) (by decide) (by decide) (by decide) (by decide) (by decide)
    (by decide) (by decide) rfl (Or.inl rfl)).1

end Udp
